import Mathlib

/-!
Shallow embedding of the Connesus DAO contract core
(src/connesus-dao/src/lib.rs) and verification of its specification.

The contract is a NEAR smart contract.  The core under verification is the
`ft_on_transfer` transfer dispatcher, the constructor `new`, and the four
persistent maps (delegations, proposals, donations, bounties) plus counters.

Modelling conventions:
* `AccountId` is an opaque string, `Balance` (u128) is `Nat` (no claim is
  about 128-bit overflow).
* NEAR `LookupMap` is modelled as a total function into `Option` (for the
  `proposals` and `bounties` maps, where absence matters) or into `Balance`
  with default 0 (for the accumulating `delegations` and `donations` maps,
  whose entries are created lazily on first use).  `LookupMap::get` returns
  an owned deserialized copy of the stored value; mutating that copy does not
  change storage unless it is written back with `insert` — the embedding of
  `ft_on_transfer` mirrors the source on this point.
* Panics (`expect`, `assert!`) abort the call; the host commits state
  all-or-nothing.  The embedding returns the state as it stands at the panic
  point together with the panic reason, so that "aborts before any mutation"
  is a provable statement rather than a modelling artifact.
* The JSON payload is abstracted as a `RawMsg` record giving, for each field
  of the flat `TransferArgs` struct, whether the field is present.  serde_json
  deserialization of the derived struct fails when a mandatory (non-`Option`)
  field is missing and silently defaults a missing `Option` field to `None`;
  `decodeTransferArgs` mirrors exactly that.

The repository modules `utils`, `proposals`, `donations`, `bounty` and
`delegation` are referenced by lib.rs but their sources are not part of the
excerpt; the definitions below that stand for them are modelled from the
specification and say so in their doc comments.
-/

namespace Connesus

abbrev AccountId := String
abbrev Balance := Nat

/-- DAO metadata is opaque in the spec; a single raw field suffices. -/
structure DaoMetadata where
  raw : String
deriving Repr, DecidableEq

/-- Modelled from the spec: the `proposals` module is not part of the
excerpt.  Per the spec a proposal "has a kind (currently only Donate is
exercised by the transfer path)"; `Other` stands for every non-Donate kind
(the source matches `ProposalKind::Donate` against a wildcard `_`). -/
inductive ProposalKind
  | Donate
  | Other
deriving Repr, DecidableEq

/-- Modelled from the spec: the Proposal entity (proposals module, not in the
excerpt) carries a kind and per-donor recorded donations ("an accumulated
donation total contributed by multiple senders", "P's recorded donation for
S"), modelled as a total map with default 0. -/
structure Proposal where
  kind : ProposalKind
  donations : AccountId → Balance

/-- Modelled from the spec: `Proposal::donate` (proposals module, not in the
excerpt) records a donation against the proposal; "amounts accumulate, they
do not overwrite" (spec 4.3). -/
def Proposal.donate (p : Proposal) (donor : AccountId) (amount : Balance) : Proposal :=
  { p with donations := fun a => if a = donor then p.donations a + amount else p.donations a }

/-- Bounty input from the transfer payload: the designated payout token
account plus further parameters (title, reward, deadline) that the spec
leaves opaque. -/
structure BountyInput where
  token : AccountId
  details : String
deriving Repr, DecidableEq

/-- Contract state, mirroring the `Contract` struct of lib.rs field by
field.  `VersionedProposal`/`VersionedBounty` are modelled by their payloads
(`.into()` in the source converts them to `Proposal`). -/
structure Contract where
  dao_metadata : DaoMetadata
  locked_amount : Balance
  token_account_id : AccountId
  total_delegation_amount : Balance
  delegations : AccountId → Balance
  last_proposal_id : Nat
  proposals : Nat → Option Proposal
  donations : AccountId → Balance
  owner_id : AccountId
  last_bounty_id : Nat
  bounties : Nat → Option BountyInput

/-- Call environment: the NEAR host exposes `env::predecessor_account_id()`,
the account that invoked the current call (for `ft_on_transfer`, the token
contract performing the transfer-and-notify). -/
structure CallEnv where
  predecessor_account_id : AccountId
deriving Repr, DecidableEq

/-- Constructor `new` (lib.rs 71-88): fresh state with empty maps, zero
counters, the given token contract id, and the predecessor as owner. -/
def Contract.new (metadata : DaoMetadata) (token_contract_id : AccountId)
    (env : CallEnv) : Contract :=
  { dao_metadata := metadata
    token_account_id := token_contract_id
    total_delegation_amount := 0
    delegations := fun _ => 0
    last_proposal_id := 0
    proposals := fun _ => none
    locked_amount := 0
    donations := fun _ => 0
    owner_id := env.predecessor_account_id
    last_bounty_id := 0
    bounties := fun _ => none }

/-- Modelled from the spec: `assert_account_id` lives in the `utils` module,
which is not part of the excerpt.  The spec describes it as the anti-spoofing
check that transfers "actually originate from the expected token contract...,
comparing the token contract's own account id, not the sender's" (spec 3) and
whose purpose is to "prevent an attacker from calling the transfer-notification
entry point on behalf of an unrelated token contract" (spec 4.2).  The account
id of the contract that invoked `ft_on_transfer` is the host's predecessor
account id, so the check is: the predecessor equals the candidate account.
(As a free function it has no access to the contract state, so this is the
only reading under which the stated purpose is achievable; at the three call
sites that pass the configured token account it specializes to "the caller is
the configured token contract".) -/
def assert_account_id (env : CallEnv) (account_id : AccountId) : Bool :=
  env.predecessor_account_id == account_id

/-- Modelled from the spec: `internal_delegate` (delegation module, not in
the excerpt) implements the Delegate effect "add `amount` to
`delegations[delegate]`" (spec 4.1 routing table); entries are created lazily
and accumulate. -/
def Contract.internal_delegate (self : Contract) (delegate : AccountId)
    (amount : Balance) : Contract :=
  { self with
      delegations := fun a =>
        if a = delegate then self.delegations a + amount else self.delegations a }

/-- Modelled from the spec: `open_donate` (donations module, not in the
excerpt) implements the OpenDonate effect "add `amount` to
`donations[sender]`" (spec 4.1 routing table). -/
def Contract.open_donate (self : Contract) (sender : AccountId)
    (amount : Balance) : Contract :=
  { self with
      donations := fun a =>
        if a = sender then self.donations a + amount else self.donations a }

/-- Modelled from the spec: `create_bounty` (bounty module, not in the
excerpt) "assigns the next sequential bounty id, and stores the bounty"
(spec 4.4); ids start at 0 (spec 6) and increase monotonically. -/
def Contract.create_bounty (self : Contract) (input : BountyInput) : Contract :=
  { self with
      bounties := fun k =>
        if k = self.last_bounty_id then some input else self.bounties k
      last_bounty_id := self.last_bounty_id + 1 }

/-- Transfer purposes, mirroring `TransferPurpose` in lib.rs. -/
inductive TransferPurpose
  | Delegate
  | OpenDonate
  | ProposalDonate
  | CreateBounty
deriving Repr, DecidableEq

/-- The flat `TransferArgs` struct of lib.rs: mandatory delegate account and
purpose tag, optional proposal id and bounty input. -/
structure TransferArgs where
  delegate : AccountId
  proposal : Option Nat
  transfer_type : TransferPurpose
  bounty_input : Option BountyInput
deriving Repr, DecidableEq

/-- A transfer message payload, abstracted as the presence/value of each
field of the flat `TransferArgs` JSON object. -/
structure RawMsg where
  delegate : Option AccountId
  proposal : Option Nat
  transfer_type : Option TransferPurpose
  bounty_input : Option BountyInput
deriving Repr, DecidableEq

/-- serde_json deserialization of the derived `TransferArgs` struct
(lib.rs 140): the non-`Option` fields `delegate` and `transfer_type` are
mandatory (missing field is a decode error, the `expect` reason being
"Not valid DelegateArgs"); the `Option` fields `proposal` and `bounty_input`
default to `None` when absent. -/
def decodeTransferArgs (msg : RawMsg) : Option TransferArgs :=
  match msg.delegate, msg.transfer_type with
  | some d, some t => some ⟨d, msg.proposal, t, msg.bounty_input⟩
  | _, _ => none

/-- Fatal assertion reasons of the dispatcher, one constructor per fixed
reason string in the source:
`invalidArgs` = "Not valid DelegateArgs" (lib.rs 140),
`invalidAccount` = the `assert_account_id` failure (utils module),
`proposalIdNotProvided` = "PROPOSAL_ID_NOT_PROVIDED" (lib.rs 154),
`noProposal` = "ERR_NO_PROPOSAL" (lib.rs 155),
`notDonationKind` = "PROPOSAL_IS_NOT_DONATION_KIND" (lib.rs 161-164),
`bountyInputNotFound` = "BOUNTY_INPUT_NOT_FOUND" (lib.rs 170). -/
inductive FtError
  | invalidArgs
  | invalidAccount
  | proposalIdNotProvided
  | noProposal
  | notDonationKind
  | bountyInputNotFound
deriving Repr, DecidableEq

/-- The transfer dispatcher `ft_on_transfer` (lib.rs 134-176), line by line.
Returns the contract state together with either the acknowledgement value
(`Except.ok`, the amount of tokens refused) or the panic reason
(`Except.error`); in the error case the returned state is the state as it
stood at the panic point, so that "no mutation before the abort" is provable.
In the `ProposalDonate` branch the source obtains an owned copy of the
proposal from the `LookupMap`, calls `donate` on that copy and never inserts
it back into `self.proposals`; the embedding mirrors this (the `_updated`
binding is dead, exactly as the mutation of the copy is in the source). -/
def ft_on_transfer (self : Contract) (env : CallEnv) (sender_id : AccountId)
    (amount : Balance) (msg : RawMsg) : Contract × Except FtError Balance :=
  match decodeTransferArgs msg with
  | none => (self, Except.error FtError.invalidArgs)
  | some args =>
    let token_account_id := self.token_account_id
    match args.transfer_type with
    | TransferPurpose.Delegate =>
        if assert_account_id env token_account_id then
          let self := self.internal_delegate args.delegate amount
          let self := { self with locked_amount := self.locked_amount + amount }
          (self, Except.ok 0)
        else (self, Except.error FtError.invalidAccount)
    | TransferPurpose.OpenDonate =>
        if assert_account_id env token_account_id then
          (self.open_donate sender_id amount, Except.ok 0)
        else (self, Except.error FtError.invalidAccount)
    | TransferPurpose.ProposalDonate =>
        if assert_account_id env token_account_id then
          match args.proposal with
          | none => (self, Except.error FtError.proposalIdNotProvided)
          | some proposal_id =>
            match self.proposals proposal_id with
            | none => (self, Except.error FtError.noProposal)
            | some proposal_obj =>
              match proposal_obj.kind with
              | ProposalKind.Donate =>
                  let _updated := proposal_obj.donate sender_id amount
                  (self, Except.ok 0)
              | ProposalKind.Other =>
                  (self, Except.error FtError.notDonationKind)
        else (self, Except.error FtError.invalidAccount)
    | TransferPurpose.CreateBounty =>
        match args.bounty_input with
        | none => (self, Except.error FtError.bountyInputNotFound)
        | some bounty_unwrapped =>
            if assert_account_id env bounty_unwrapped.token then
              (self.create_bounty bounty_unwrapped, Except.ok 0)
            else (self, Except.error FtError.invalidAccount)

/-- Proposal fixture for the lost-donation scenario: a Donate-kind proposal
with no donations recorded yet. -/
def donateProposal : Proposal := ⟨ProposalKind.Donate, fun _ => 0⟩

/-- Contract fixture for the lost-donation scenario: a fresh contract for
token "token.near" holding the Donate-kind proposal `donateProposal` under
id 1. -/
def proposalDonateState : Contract :=
  { Contract.new ⟨"m"⟩ "token.near" ⟨"owner.near"⟩ with
      proposals := fun k => if k = 1 then some donateProposal else none
      last_proposal_id := 2 }

/-- States reachable from a fresh contract by any sequence of
`ft_on_transfer` calls (on a fatal call the host rolls the state back, and
the dispatcher panics before mutating, so taking the returned state covers
both outcomes). -/
inductive Reachable : Contract → Prop
  | init (m : DaoMetadata) (t : AccountId) (env : CallEnv) :
      Reachable (Contract.new m t env)
  | step (s : Contract) (env : CallEnv) (sender : AccountId) (amount : Balance)
      (msg : RawMsg) : Reachable s →
      Reachable (ft_on_transfer s env sender amount msg).1

/-- Every id at or above `last_bounty_id` is unoccupied in the bounty map. -/
def BountiesBounded (s : Contract) : Prop :=
  ∀ k, s.last_bounty_id ≤ k → s.bounties k = none


/-- Claim C8: whenever `ft_on_transfer` returns successfully, its return value
is the acknowledgement 0 (zero units refused): the dispatcher fully accepts
the transferred amount once the command validates. -/
theorem ft_ack_always_zero (s : Contract) (env : CallEnv) (sender : AccountId)
    (amount : Balance) (msg : RawMsg) (v : Balance)
    (h : (ft_on_transfer s env sender amount msg).2 = Except.ok v) : v = 0 := by
  unfold ft_on_transfer at h
  repeat' split at h
  all_goals dsimp only at h
  all_goals try split_ifs at h
  all_goals simp_all

/-- Claim C8 witness: a concrete successful Delegate call returns
acknowledgement 0. -/
theorem ft_ack_always_zero_witness :
    ((ft_on_transfer (Contract.new ⟨"m"⟩ "token.near" ⟨"owner.near"⟩) ⟨"token.near"⟩
        "alice.near" 100 ⟨some "bob.near", none, some TransferPurpose.Delegate, none⟩).2 =
      Except.ok 0) ∧ (0 : Balance) = 0 :=
  ⟨rfl, ft_ack_always_zero (Contract.new ⟨"m"⟩ "token.near" ⟨"owner.near"⟩) ⟨"token.near"⟩
    "alice.near" 100 ⟨some "bob.near", none, some TransferPurpose.Delegate, none⟩ 0 rfl⟩

/-- Claim C9: for every DAO metadata value, token contract account id and
calling environment, `Contract.new` produces a state with all four maps
empty, zero locked amount, zero delegation total, proposal and bounty ids 0,
the configured token account equal to the given id, and the predecessor
recorded as owner. -/
theorem new_initial_state (m : DaoMetadata) (t : AccountId) (env : CallEnv) :
    (Contract.new m t env).delegations = (fun _ => 0) ∧
    (Contract.new m t env).proposals = (fun _ => none) ∧
    (Contract.new m t env).donations = (fun _ => 0) ∧
    (Contract.new m t env).bounties = (fun _ => none) ∧
    (Contract.new m t env).locked_amount = 0 ∧
    (Contract.new m t env).total_delegation_amount = 0 ∧
    (Contract.new m t env).last_proposal_id = 0 ∧
    (Contract.new m t env).last_bounty_id = 0 ∧
    (Contract.new m t env).token_account_id = t ∧
    (Contract.new m t env).owner_id = env.predecessor_account_id ∧
    (Contract.new m t env).dao_metadata = m :=
  ⟨rfl, rfl, rfl, rfl, rfl, rfl, rfl, rfl, rfl, rfl, rfl⟩

/-- Claim C10: the flat `TransferArgs` shape makes the `delegate` field and
the `transfer_type` tag mandatory for every purpose: a message omitting
either fails to decode and the whole call aborts with the payload error and
no state change. -/
theorem missing_mandatory_field_aborts (s : Contract) (env : CallEnv)
    (sender : AccountId) (amount : Balance) (msg : RawMsg)
    (h : msg.delegate = none ∨ msg.transfer_type = none) :
    decodeTransferArgs msg = none ∧
    ft_on_transfer s env sender amount msg = (s, Except.error FtError.invalidArgs) := by
  have hd : decodeTransferArgs msg = none := by
    unfold decodeTransferArgs
    rcases h with h | h
    · rw [h]
    · rw [h]
      cases msg.delegate <;> rfl
  exact ⟨hd, by simp [ft_on_transfer, hd]⟩

/-- Claim C10 witness: a concrete OpenDonate message without the `delegate`
field is rejected with the payload error and the state is unchanged. -/
theorem missing_mandatory_field_aborts_witness :
    decodeTransferArgs ⟨none, some 1, some TransferPurpose.OpenDonate, none⟩ = none ∧
    ft_on_transfer (Contract.new ⟨"m"⟩ "token.near" ⟨"owner.near"⟩) ⟨"token.near"⟩
      "alice.near" 100 ⟨none, some 1, some TransferPurpose.OpenDonate, none⟩ =
      (Contract.new ⟨"m"⟩ "token.near" ⟨"owner.near"⟩, Except.error FtError.invalidArgs) :=
  missing_mandatory_field_aborts _ _ _ _ _ (Or.inl rfl)

/-- Claim C1 (failing): a ProposalDonate transfer of 100 from "alice.near"
targeting the existing Donate-kind proposal 1 returns successfully, yet the
contract state is completely unchanged: the proposals map still holds the
original proposal, whose recorded donation for "alice.near" is 0, not 100.
The source obtains an owned copy of the proposal from the LookupMap, calls
`donate` on the copy and never inserts it back, so the recorded donation does
not increase by the transferred amount. -/
theorem proposal_donation_lost :
    ft_on_transfer proposalDonateState ⟨"token.near"⟩ "alice.near" 100
      ⟨some "alice.near", some 1, some TransferPurpose.ProposalDonate, none⟩ =
      (proposalDonateState, Except.ok 0) ∧
    (ft_on_transfer proposalDonateState ⟨"token.near"⟩ "alice.near" 100
      ⟨some "alice.near", some 1, some TransferPurpose.ProposalDonate, none⟩).1.proposals 1 =
      some donateProposal ∧
    donateProposal.donations "alice.near" = 0 ∧
    (donateProposal.donate "alice.near" 100).donations "alice.near" = 100 :=
  ⟨rfl, rfl, rfl, rfl⟩

/-- Claim C2 counterexample: with configured token account "token.near", a
CreateBounty transfer called by predecessor "evil.near" whose bounty names
payout token "evil.near" succeeds and stores the bounty, although the
bounty's token account differs from the configured token account — so the
bounty token is not validated to equal `token_account_id`. -/
theorem bounty_token_not_checked_against_config :
    ((ft_on_transfer (Contract.new ⟨"m"⟩ "token.near" ⟨"owner.near"⟩) ⟨"evil.near"⟩
        "evil.near" 5 ⟨some "evil.near", none, some TransferPurpose.CreateBounty,
          some ⟨"evil.near", "task"⟩⟩).2 = Except.ok 0) ∧
    ((ft_on_transfer (Contract.new ⟨"m"⟩ "token.near" ⟨"owner.near"⟩) ⟨"evil.near"⟩
        "evil.near" 5 ⟨some "evil.near", none, some TransferPurpose.CreateBounty,
          some ⟨"evil.near", "task"⟩⟩).1.bounties 0 = some ⟨"evil.near", "task"⟩) ∧
    ("evil.near" : AccountId) ≠
      (Contract.new ⟨"m"⟩ "token.near" ⟨"owner.near"⟩).token_account_id :=
  ⟨rfl, rfl, by decide⟩

/-- Claim C2 (amended): the bounty's designated token account is validated —
by the same `assert_account_id` check used for the other purposes — to equal
the calling (predecessor) account, before the bounty is stored: a successful
CreateBounty call implies the predecessor equals the bounty's token account
and the bounty is stored under the current `last_bounty_id`; when the check
fails, the call aborts with the account error and the state is unchanged, so
no bounty is created. -/
theorem create_bounty_validates_token_against_caller (s : Contract)
    (env : CallEnv) (sender : AccountId) (amount : Balance) (msg : RawMsg)
    (args : TransferArgs) (b : BountyInput)
    (hdec : decodeTransferArgs msg = some args)
    (ht : args.transfer_type = TransferPurpose.CreateBounty)
    (hb : args.bounty_input = some b) :
    ((ft_on_transfer s env sender amount msg).2 = Except.ok 0 →
      env.predecessor_account_id = b.token ∧
      (ft_on_transfer s env sender amount msg).1.bounties s.last_bounty_id = some b) ∧
    (env.predecessor_account_id ≠ b.token →
      ft_on_transfer s env sender amount msg = (s, Except.error FtError.invalidAccount)) := by
  obtain ⟨d, p, tt, bi⟩ := args
  dsimp only at ht hb
  subst ht
  subst hb
  by_cases hacc : env.predecessor_account_id = b.token
  · simp [ft_on_transfer, hdec, assert_account_id, hacc, Contract.create_bounty]
  · simp [ft_on_transfer, hdec, assert_account_id, hacc]

/-- Claim C2 witness: a concrete CreateBounty call whose bounty token differs
from the caller is rejected with the account error and the state is
unchanged. -/
theorem create_bounty_validates_token_against_caller_witness :
    ft_on_transfer (Contract.new ⟨"m"⟩ "token.near" ⟨"owner.near"⟩) ⟨"token.near"⟩
      "alice.near" 5 ⟨some "alice.near", none, some TransferPurpose.CreateBounty,
        some ⟨"elsewhere.near", "task"⟩⟩ =
      (Contract.new ⟨"m"⟩ "token.near" ⟨"owner.near"⟩, Except.error FtError.invalidAccount) :=
  (create_bounty_validates_token_against_caller
    (Contract.new ⟨"m"⟩ "token.near" ⟨"owner.near"⟩) ⟨"token.near"⟩ "alice.near" 5
    ⟨some "alice.near", none, some TransferPurpose.CreateBounty,
      some ⟨"elsewhere.near", "task"⟩⟩ _ _ rfl rfl rfl).2 (by decide)

/-- Claim C3: a Delegate, OpenDonate or ProposalDonate transfer whose caller
(the account claiming to be the token contract) differs from the configured
token account, and a CreateBounty transfer whose bounty token account fails
that same check, abort with the account error and the returned state is the
input state: none of the maps or counters is mutated. -/
theorem mismatched_account_rejected_unchanged (s : Contract) (env : CallEnv)
    (sender : AccountId) (amount : Balance) (msg : RawMsg) (args : TransferArgs)
    (hdec : decodeTransferArgs msg = some args)
    (hbad :
      ((args.transfer_type = TransferPurpose.Delegate ∨
        args.transfer_type = TransferPurpose.OpenDonate ∨
        args.transfer_type = TransferPurpose.ProposalDonate) ∧
        env.predecessor_account_id ≠ s.token_account_id) ∨
      (args.transfer_type = TransferPurpose.CreateBounty ∧
        ∃ b, args.bounty_input = some b ∧ env.predecessor_account_id ≠ b.token)) :
    ft_on_transfer s env sender amount msg = (s, Except.error FtError.invalidAccount) := by
  obtain ⟨d, p, tt, bi⟩ := args
  dsimp only at hbad
  rcases hbad with ⟨(ht | ht | ht), hne⟩ | ⟨ht, b, hb, hne⟩ <;> subst ht <;>
    try subst hb
  all_goals simp [ft_on_transfer, hdec, assert_account_id, hne]

/-- Claim C3 witness: a concrete Delegate transfer from the unrelated caller
"evil.near" is rejected with the account error and the state is unchanged. -/
theorem mismatched_account_rejected_unchanged_witness :
    ft_on_transfer (Contract.new ⟨"m"⟩ "token.near" ⟨"owner.near"⟩) ⟨"evil.near"⟩
      "alice.near" 100 ⟨some "bob.near", none, some TransferPurpose.Delegate, none⟩ =
      (Contract.new ⟨"m"⟩ "token.near" ⟨"owner.near"⟩, Except.error FtError.invalidAccount) :=
  mismatched_account_rejected_unchanged (Contract.new ⟨"m"⟩ "token.near" ⟨"owner.near"⟩)
    ⟨"evil.near"⟩ "alice.near" 100
    ⟨some "bob.near", none, some TransferPurpose.Delegate, none⟩
    ⟨"bob.near", none, TransferPurpose.Delegate, none⟩ rfl
    (Or.inl ⟨Or.inl rfl, by decide⟩)

/-- Claim C4: a valid Delegate transfer of amount A naming delegate D
succeeds with acknowledgement 0, increases `delegations[D]` by exactly A,
leaves every other delegation entry unchanged, increases `locked_amount` by
exactly A, and changes none of the proposals, donations and bounties maps. -/
theorem delegate_effect (s : Contract) (env : CallEnv) (sender : AccountId)
    (amount : Balance) (msg : RawMsg) (args : TransferArgs)
    (hdec : decodeTransferArgs msg = some args)
    (ht : args.transfer_type = TransferPurpose.Delegate)
    (hacc : env.predecessor_account_id = s.token_account_id) :
    (ft_on_transfer s env sender amount msg).2 = Except.ok 0 ∧
    (ft_on_transfer s env sender amount msg).1.delegations args.delegate =
      s.delegations args.delegate + amount ∧
    (∀ a, a ≠ args.delegate →
      (ft_on_transfer s env sender amount msg).1.delegations a = s.delegations a) ∧
    (ft_on_transfer s env sender amount msg).1.locked_amount = s.locked_amount + amount ∧
    (ft_on_transfer s env sender amount msg).1.proposals = s.proposals ∧
    (ft_on_transfer s env sender amount msg).1.donations = s.donations ∧
    (ft_on_transfer s env sender amount msg).1.bounties = s.bounties := by
  obtain ⟨d, p, tt, bi⟩ := args
  dsimp only at ht ⊢
  subst ht
  refine ⟨?_, ?_, ?_, ?_, ?_, ?_, ?_⟩
  · simp [ft_on_transfer, hdec, assert_account_id, hacc]
  · simp [ft_on_transfer, hdec, assert_account_id, hacc, Contract.internal_delegate]
  · intro a ha
    simp [ft_on_transfer, hdec, assert_account_id, hacc, Contract.internal_delegate, ha]
  · simp [ft_on_transfer, hdec, assert_account_id, hacc, Contract.internal_delegate]
  · simp [ft_on_transfer, hdec, assert_account_id, hacc, Contract.internal_delegate]
  · simp [ft_on_transfer, hdec, assert_account_id, hacc, Contract.internal_delegate]
  · simp [ft_on_transfer, hdec, assert_account_id, hacc, Contract.internal_delegate]

/-- Claim C4 witness: a concrete valid Delegate transfer of 100 to
"bob.near" increases that delegation entry by exactly 100. -/
theorem delegate_effect_witness :
    (ft_on_transfer (Contract.new ⟨"m"⟩ "token.near" ⟨"owner.near"⟩) ⟨"token.near"⟩
      "alice.near" 100 ⟨some "bob.near", none, some TransferPurpose.Delegate, none⟩).1.delegations
        "bob.near" =
      (Contract.new ⟨"m"⟩ "token.near" ⟨"owner.near"⟩).delegations "bob.near" + 100 :=
  (delegate_effect (Contract.new ⟨"m"⟩ "token.near" ⟨"owner.near"⟩) ⟨"token.near"⟩
    "alice.near" 100 ⟨some "bob.near", none, some TransferPurpose.Delegate, none⟩
    ⟨"bob.near", none, TransferPurpose.Delegate, none⟩ rfl rfl rfl).2.1

/-- Claim C6: an OpenDonate transfer of amount A from sender S that passes
the token-account check succeeds with acknowledgement 0 and increases
`donations[S]` by exactly A, leaving every other donation entry unchanged. -/
theorem open_donate_effect (s : Contract) (env : CallEnv) (sender : AccountId)
    (amount : Balance) (msg : RawMsg) (args : TransferArgs)
    (hdec : decodeTransferArgs msg = some args)
    (ht : args.transfer_type = TransferPurpose.OpenDonate)
    (hacc : env.predecessor_account_id = s.token_account_id) :
    (ft_on_transfer s env sender amount msg).2 = Except.ok 0 ∧
    (ft_on_transfer s env sender amount msg).1.donations sender =
      s.donations sender + amount ∧
    (∀ a, a ≠ sender →
      (ft_on_transfer s env sender amount msg).1.donations a = s.donations a) := by
  obtain ⟨d, p, tt, bi⟩ := args
  dsimp only at ht
  subst ht
  refine ⟨?_, ?_, ?_⟩
  · simp [ft_on_transfer, hdec, assert_account_id, hacc]
  · simp [ft_on_transfer, hdec, assert_account_id, hacc, Contract.open_donate]
  · intro a ha
    simp [ft_on_transfer, hdec, assert_account_id, hacc, Contract.open_donate, ha]

/-- Claim C6 witness: a concrete OpenDonate transfer of 42 from "alice.near"
increases her open-donation entry by exactly 42. -/
theorem open_donate_effect_witness :
    (ft_on_transfer (Contract.new ⟨"m"⟩ "token.near" ⟨"owner.near"⟩) ⟨"token.near"⟩
      "alice.near" 42 ⟨some "alice.near", none, some TransferPurpose.OpenDonate, none⟩).1.donations
        "alice.near" =
      (Contract.new ⟨"m"⟩ "token.near" ⟨"owner.near"⟩).donations "alice.near" + 42 :=
  (open_donate_effect (Contract.new ⟨"m"⟩ "token.near" ⟨"owner.near"⟩) ⟨"token.near"⟩
    "alice.near" 42 ⟨some "alice.near", none, some TransferPurpose.OpenDonate, none⟩
    ⟨"alice.near", none, TransferPurpose.OpenDonate, none⟩ rfl rfl rfl).2.1

/-- Claim C5: `ft_on_transfer` fails exactly in the six listed cases, each
with its fixed reason, and on every failure the returned state is the input
state: malformed payload ("Not valid DelegateArgs"), token-account check
failure, ProposalDonate without a proposal id ("PROPOSAL_ID_NOT_PROVIDED"),
unknown proposal id ("ERR_NO_PROPOSAL"), non-Donate proposal kind
("PROPOSAL_IS_NOT_DONATION_KIND"), CreateBounty without a bounty input
("BOUNTY_INPUT_NOT_FOUND"). -/
theorem failure_cases_exact (s : Contract) (env : CallEnv) (sender : AccountId)
    (amount : Balance) (msg : RawMsg) :
    ((∃ e, (ft_on_transfer s env sender amount msg).2 = Except.error e) →
        (ft_on_transfer s env sender amount msg).1 = s) ∧
    ((ft_on_transfer s env sender amount msg).2 = Except.error FtError.invalidArgs ↔
        decodeTransferArgs msg = none) ∧
    ((ft_on_transfer s env sender amount msg).2 = Except.error FtError.invalidAccount ↔
        ∃ args, decodeTransferArgs msg = some args ∧
          (((args.transfer_type = TransferPurpose.Delegate ∨
             args.transfer_type = TransferPurpose.OpenDonate ∨
             args.transfer_type = TransferPurpose.ProposalDonate) ∧
             env.predecessor_account_id ≠ s.token_account_id) ∨
           (args.transfer_type = TransferPurpose.CreateBounty ∧
             ∃ b, args.bounty_input = some b ∧ env.predecessor_account_id ≠ b.token))) ∧
    ((ft_on_transfer s env sender amount msg).2 = Except.error FtError.proposalIdNotProvided ↔
        ∃ args, decodeTransferArgs msg = some args ∧
          args.transfer_type = TransferPurpose.ProposalDonate ∧
          env.predecessor_account_id = s.token_account_id ∧
          args.proposal = none) ∧
    ((ft_on_transfer s env sender amount msg).2 = Except.error FtError.noProposal ↔
        ∃ args pid, decodeTransferArgs msg = some args ∧
          args.transfer_type = TransferPurpose.ProposalDonate ∧
          env.predecessor_account_id = s.token_account_id ∧
          args.proposal = some pid ∧ s.proposals pid = none) ∧
    ((ft_on_transfer s env sender amount msg).2 = Except.error FtError.notDonationKind ↔
        ∃ args pid prop, decodeTransferArgs msg = some args ∧
          args.transfer_type = TransferPurpose.ProposalDonate ∧
          env.predecessor_account_id = s.token_account_id ∧
          args.proposal = some pid ∧ s.proposals pid = some prop ∧
          prop.kind ≠ ProposalKind.Donate) ∧
    ((ft_on_transfer s env sender amount msg).2 = Except.error FtError.bountyInputNotFound ↔
        ∃ args, decodeTransferArgs msg = some args ∧
          args.transfer_type = TransferPurpose.CreateBounty ∧
          args.bounty_input = none) := by
  cases hdec : decodeTransferArgs msg with
  | none => simp [ft_on_transfer, hdec]
  | some args =>
    obtain ⟨d, p, tt, bi⟩ := args
    cases tt with
    | Delegate =>
      by_cases hacc : env.predecessor_account_id = s.token_account_id <;>
        simp [ft_on_transfer, hdec, assert_account_id, hacc]
    | OpenDonate =>
      by_cases hacc : env.predecessor_account_id = s.token_account_id <;>
        simp [ft_on_transfer, hdec, assert_account_id, hacc]
    | ProposalDonate =>
      by_cases hacc : env.predecessor_account_id = s.token_account_id
      · cases p with
        | none => simp [ft_on_transfer, hdec, assert_account_id, hacc]
        | some pid =>
          cases hpr : s.proposals pid with
          | none => simp [ft_on_transfer, hdec, assert_account_id, hacc, hpr]
          | some prop =>
            obtain ⟨k, dons⟩ := prop
            cases k <;> simp [ft_on_transfer, hdec, assert_account_id, hacc, hpr]
      · simp [ft_on_transfer, hdec, assert_account_id, hacc]
    | CreateBounty =>
      cases bi with
      | none => simp [ft_on_transfer, hdec, assert_account_id]
      | some b =>
        by_cases hacc : env.predecessor_account_id = b.token <;>
          simp [ft_on_transfer, hdec, assert_account_id, hacc]

/-- Claim C5 witness: a concrete ProposalDonate call without a proposal id
fails with the PROPOSAL_ID_NOT_PROVIDED reason. -/
theorem failure_cases_exact_witness :
    (ft_on_transfer (Contract.new ⟨"m"⟩ "token.near" ⟨"owner.near"⟩) ⟨"token.near"⟩
      "alice.near" 7 ⟨some "alice.near", none, some TransferPurpose.ProposalDonate, none⟩).2 =
      Except.error FtError.proposalIdNotProvided :=
  (failure_cases_exact (Contract.new ⟨"m"⟩ "token.near" ⟨"owner.near"⟩) ⟨"token.near"⟩
    "alice.near" 7
    ⟨some "alice.near", none, some TransferPurpose.ProposalDonate, none⟩).2.2.2.1.mpr
    ⟨⟨"alice.near", none, TransferPurpose.ProposalDonate, none⟩, rfl, rfl, rfl, rfl⟩

/-- Every call moves `last_bounty_id` monotonically, never touches bounty
entries below the old `last_bounty_id`, and never maps an id at or above the
new `last_bounty_id`. -/
theorem ft_bounty_step (s : Contract) (env : CallEnv) (sender : AccountId)
    (amount : Balance) (msg : RawMsg) :
    s.last_bounty_id ≤ (ft_on_transfer s env sender amount msg).1.last_bounty_id ∧
    (∀ k, k < s.last_bounty_id →
      (ft_on_transfer s env sender amount msg).1.bounties k = s.bounties k) ∧
    (∀ k, (ft_on_transfer s env sender amount msg).1.last_bounty_id ≤ k →
      (ft_on_transfer s env sender amount msg).1.bounties k = s.bounties k) := by
  cases hdec : decodeTransferArgs msg with
  | none => simp [ft_on_transfer, hdec]
  | some args =>
    obtain ⟨d, p, tt, bi⟩ := args
    cases tt with
    | Delegate =>
      by_cases hacc : env.predecessor_account_id = s.token_account_id <;>
        simp [ft_on_transfer, hdec, assert_account_id, hacc, Contract.internal_delegate]
    | OpenDonate =>
      by_cases hacc : env.predecessor_account_id = s.token_account_id <;>
        simp [ft_on_transfer, hdec, assert_account_id, hacc, Contract.open_donate]
    | ProposalDonate =>
      by_cases hacc : env.predecessor_account_id = s.token_account_id
      · cases p with
        | none => simp [ft_on_transfer, hdec, assert_account_id, hacc]
        | some pid =>
          cases hpr : s.proposals pid with
          | none => simp [ft_on_transfer, hdec, assert_account_id, hacc, hpr]
          | some prop =>
            obtain ⟨k, dons⟩ := prop
            cases k <;> simp [ft_on_transfer, hdec, assert_account_id, hacc, hpr]
      · simp [ft_on_transfer, hdec, assert_account_id, hacc]
    | CreateBounty =>
      cases bi with
      | none => simp [ft_on_transfer, hdec, assert_account_id]
      | some b =>
        by_cases hacc : env.predecessor_account_id = b.token
        · refine ⟨?_, ?_, ?_⟩
          · simp [ft_on_transfer, hdec, assert_account_id, hacc, Contract.create_bounty]
          · intro k hk
            simp only [ft_on_transfer, hdec, assert_account_id, hacc]
            simp [Contract.create_bounty]
            omega
          · intro k hk
            simp only [ft_on_transfer, hdec, assert_account_id, hacc] at hk ⊢
            simp [Contract.create_bounty] at hk ⊢
            omega
        · simp [ft_on_transfer, hdec, assert_account_id, hacc]

/-- In every reachable contract state, no bounty is stored at or above
`last_bounty_id`. -/
theorem reachable_bounties_bounded (s : Contract) (h : Reachable s) :
    BountiesBounded s := by
  induction h with
  | init m t env => intro k _; rfl
  | step s env sender amount msg hs ih =>
    intro k hk
    obtain ⟨hmono, _, hhigh⟩ := ft_bounty_step s env sender amount msg
    exact (hhigh k hk).trans (ih k (le_trans hmono hk))

/-- Claim C7: in any reachable state, all stored bounty ids lie strictly
below `last_bounty_id`; every call leaves `last_bounty_id` monotone and old
bounty entries untouched; and a successful CreateBounty call stores its
bounty under the current `last_bounty_id` — an id not yet in use — and bumps
`last_bounty_id` by one.  Hence across any sequence of successful
CreateBounty calls the assigned ids are strictly increasing and never
reused. -/
theorem bounty_ids_fresh_increasing (s : Contract) (h : Reachable s) :
    BountiesBounded s ∧
    (∀ env sender amount msg,
      s.last_bounty_id ≤ (ft_on_transfer s env sender amount msg).1.last_bounty_id ∧
      ∀ k, k < s.last_bounty_id →
        (ft_on_transfer s env sender amount msg).1.bounties k = s.bounties k) ∧
    (∀ env sender amount msg args b,
      decodeTransferArgs msg = some args →
      args.transfer_type = TransferPurpose.CreateBounty →
      args.bounty_input = some b →
      (ft_on_transfer s env sender amount msg).2 = Except.ok 0 →
        s.bounties s.last_bounty_id = none ∧
        (ft_on_transfer s env sender amount msg).1.bounties s.last_bounty_id = some b ∧
        (ft_on_transfer s env sender amount msg).1.last_bounty_id = s.last_bounty_id + 1) := by
  have hbdd : BountiesBounded s := reachable_bounties_bounded s h
  refine ⟨hbdd, ?_, ?_⟩
  · intro env sender amount msg
    obtain ⟨hmono, hlow, _⟩ := ft_bounty_step s env sender amount msg
    exact ⟨hmono, hlow⟩
  · intro env sender amount msg args b hdec ht hb hok
    obtain ⟨d, p, tt, bi⟩ := args
    dsimp only at ht hb
    subst ht
    subst hb
    by_cases hacc : env.predecessor_account_id = b.token
    · refine ⟨hbdd s.last_bounty_id le_rfl, ?_, ?_⟩ <;>
        simp [ft_on_transfer, hdec, assert_account_id, hacc, Contract.create_bounty]
    · exfalso
      simp [ft_on_transfer, hdec, assert_account_id, hacc] at hok

/-- Claim C7 witness: a fresh contract is reachable and stores no bounty at
id 0 (= its `last_bounty_id`). -/
theorem bounty_ids_fresh_increasing_witness :
    (Contract.new ⟨"m"⟩ "token.near" ⟨"owner.near"⟩).bounties 0 = none :=
  (bounty_ids_fresh_increasing (Contract.new ⟨"m"⟩ "token.near" ⟨"owner.near"⟩)
    (Reachable.init ⟨"m"⟩ "token.near" ⟨"owner.near"⟩)).1 0 (Nat.le_refl 0)

end Connesus
